import Mathlib

/-!
Verification development for the movie-by-birthdate repository.

Two components are embedded:
- the Proxy Handler (`api` serverless function): forwards a prompt from the
  request body to an upstream generative-AI endpoint and relays the response;
- the Form Controller (`index.tsx` submit handler): validates a date input,
  derives a cache key from the shifted date's month/year, and either serves a
  cached movie record or fetches, caches and renders a fresh one.

Browser/runtime builtins (JSON.parse, the AI client call, the upstream fetch)
are modelled as explicit environment parameters: success is `some`/`Except.ok`,
a thrown exception is `none`/`Except.error` carrying the stringified error.
Date arithmetic follows the source's `Date` manipulation with local time taken
as UTC: `new Date("YYYY-MM-DD")` parses the calendar date and
`setDate(getDate() + 1)` adds one calendar day with month/year rollover.
-/

/-- A JSON document, used to model request/response bodies of the proxy. -/
inductive JsonValue where
  | null
  | bool (b : Bool)
  | num (n : Int)
  | str (s : String)
  | arr (elems : List JsonValue)
  | obj (fields : List (String × JsonValue))

mutual

/-- Model of `JSON.stringify` on parsed JSON documents (string escaping elided,
as no claim exercises it). -/
def stringify : JsonValue → String
  | .null => "null"
  | .bool b => if b then "true" else "false"
  | .num n => toString n
  | .str s => "\"" ++ s ++ "\""
  | .arr es => "[" ++ stringifyList es ++ "]"
  | .obj fs => "\x7b" ++ stringifyFields fs ++ "\x7d"

/-- Comma-separated serialization of a JSON array's elements. -/
def stringifyList : List JsonValue → String
  | [] => ""
  | [e] => stringify e
  | e :: rest => stringify e ++ "," ++ stringifyList rest

/-- Comma-separated serialization of a JSON object's fields. -/
def stringifyFields : List (String × JsonValue) → String
  | [] => ""
  | [(k, v)] => "\"" ++ k ++ "\":" ++ stringify v
  | (k, v) :: rest => "\"" ++ k ++ "\":" ++ stringify v ++ "," ++ stringifyFields rest

end

/-- Field lookup in a JSON object's field list (first match wins, as in JS). -/
def lookupField : List (String × JsonValue) → String → Option JsonValue
  | [], _ => none
  | (k', v) :: rest, k => if k' = k then some v else lookupField rest k

/-- Model of JS property access `j.k`: a field of an object, `undefined`
(here `none`) on non-objects and missing fields. -/
def getField : JsonValue → String → Option JsonValue
  | .obj fs, k => lookupField fs k
  | _, _ => none

/-- Stringified error raised by `const \x7b prompt \x7d = x` when `x` is null. -/
def destructureNullError : String :=
  "TypeError: Cannot destructure property prompt of null as it is null."

/-- Model of the line `const \x7b prompt \x7d = await req.json()`:
`reqJson` is the result of `req.json()` (`Except.error` = the body was not
valid JSON and parsing threw). Destructuring `null` throws; destructuring any
other document yields its `prompt` field, or `undefined` (`none`) when absent. -/
def reqPrompt (reqJson : Except String JsonValue) : Except String (Option JsonValue) :=
  match reqJson with
  | .error e => .error e
  | .ok .null => .error destructureNullError
  | .ok j => .ok (getField j "prompt")

/-- An HTTP response produced by the proxy: status code and body text. -/
structure ProxyResponse where
  status : Nat
  body : String
deriving Repr, DecidableEq

/-- The body `JSON.stringify(\x7b error: String(error) \x7d)` of the catch branch. -/
def errorEnvelope (e : String) : String :=
  stringify (.obj [("error", .str e)])

/-- The Proxy Handler (`handler` in the serverless function). `upstream`
models the round-trip `fetch(...)` then `response.json()` as a function of the
forwarded prompt: outer `Except.error` = the fetch threw (network failure),
inner `Except.error` = decoding the upstream body threw, inner `Except.ok` =
the parsed upstream JSON. Any thrown error is caught and returned as a 500
with the stringified error in a JSON envelope. -/
def proxyHandler (reqJson : Except String JsonValue)
    (upstream : Option JsonValue → Except String (Except String JsonValue)) :
    ProxyResponse :=
  match reqPrompt reqJson with
  | .error e => ⟨500, errorEnvelope e⟩
  | .ok p =>
    match upstream p with
    | .error e => ⟨500, errorEnvelope e⟩
    | .ok (.error e) => ⟨500, errorEnvelope e⟩
    | .ok (.ok data) => ⟨200, stringify data⟩

/-- A calendar date as manipulated by the form controller (`month` is 1-12). -/
structure CalDate where
  year : Nat
  month : Nat
  day : Nat
deriving Repr, DecidableEq

/-- Gregorian leap-year test, as implemented by the JS `Date` calendar. -/
def isLeapYear (y : Nat) : Bool :=
  y % 4 == 0 && (y % 100 != 0 || y % 400 == 0)

/-- Number of days of month `m` of year `y` in the JS `Date` calendar. -/
def daysInMonth (y m : Nat) : Nat :=
  match m with
  | 2 => if isLeapYear y then 29 else 28
  | 4 => 30
  | 6 => 30
  | 9 => 30
  | 11 => 30
  | _ => 31

/-- Model of `birthdate.setDate(birthdate.getDate() + 1)`: add one calendar
day, rolling over month and year. -/
def addOneDay (d : CalDate) : CalDate :=
  if d.day < daysInMonth d.year d.month then
    { d with day := d.day + 1 }
  else if d.month < 12 then
    { year := d.year, month := d.month + 1, day := 1 }
  else
    { year := d.year + 1, month := 1, day := 1 }

/-- Model of `toLocaleString("es-ES", \x7b month: "long" \x7d)` on a valid date. -/
def monthNameEs (m : Nat) : String :=
  match m with
  | 1 => "enero"
  | 2 => "febrero"
  | 3 => "marzo"
  | 4 => "abril"
  | 5 => "mayo"
  | 6 => "junio"
  | 7 => "julio"
  | 8 => "agosto"
  | 9 => "septiembre"
  | 10 => "octubre"
  | 11 => "noviembre"
  | 12 => "diciembre"
  | _ => "Invalid Date"

/-- Lexicographic comparison of character lists, the order JS uses to compare
strings code unit by code unit. -/
def charListLt : List Char → List Char → Bool
  | _, [] => false
  | [], _ :: _ => true
  | a :: as, b :: bs => if a < b then true else if b < a then false else charListLt as bs

/-- Model of the JS string comparison `a < b` (so `b > a`). -/
def strLt (a b : String) : Bool := charListLt a.data b.data

/-- Split a character list on `-` separators. -/
def splitOnDash : List Char → List (List Char)
  | [] => [[]]
  | c :: cs =>
    let rest := splitOnDash cs
    if c = '-' then [] :: rest
    else
      match rest with
      | [] => [[c]]
      | g :: gs => (c :: g) :: gs

/-- Value of a decimal digit character. -/
def charDigit? (c : Char) : Option Nat :=
  if c.isDigit then some (c.toNat - 48) else none

/-- Accumulate a decimal number from digit characters. -/
def digitsValue : List Char → Nat → Option Nat
  | [], acc => some acc
  | c :: cs, acc =>
    match charDigit? c with
    | some d => digitsValue cs (10 * acc + d)
    | none => none

/-- Parse a non-empty all-digit character list as a decimal number. -/
def digitsToNat? (l : List Char) : Option Nat :=
  match l with
  | [] => none
  | _ => digitsValue l 0

/-- Model of `new Date(value)` on a date-input value `"YYYY-MM-DD"`. -/
def parseDate (s : String) : Option CalDate :=
  match (splitOnDash s.data).map digitsToNat? with
  | [some y, some m, some d] => some ⟨y, m, d⟩
  | _ => none

/-- The cache key computed from the already-shifted date:
`movie-$\x7bmonth\x7d-$\x7byear\x7d` with the localized month name. -/
def cacheKeyOfDate (d : CalDate) : String :=
  let shifted := addOneDay d
  "movie-" ++ monthNameEs shifted.month ++ "-" ++ toString shifted.year

/-- The full key derivation of the submit handler from the raw input value:
parse, shift one day, format month and year. An unparseable value yields the
key the source would build from an `Invalid Date`. -/
def deriveKey (value : String) : String :=
  match parseDate value with
  | some d => cacheKeyOfDate d
  | none => "movie-Invalid Date-NaN"

/-- Model of `localStorage.getItem` over an association-list store. -/
def getItem : List (String × String) → String → Option String
  | [], _ => none
  | (k', v) :: rest, k => if k' = k then some v else getItem rest k

/-- Model of `localStorage.setItem`: overwrite the key if present, else append. -/
def setItem : List (String × String) → String → String → List (String × String)
  | [], k, v => [(k, v)]
  | (k', v') :: rest, k, v =>
    if k' = k then (k, v) :: rest else (k', v') :: setItem rest k v

/-- The movie record described by the response schema: a title, a description
and a list of alternative titles. -/
structure MovieData where
  movieTitle : String
  description : String
  alternativeMovies : List String
deriving Repr, DecidableEq

/-- The alternatives block of `displayResults`: empty unless the list has at
least one element. -/
def renderAlternatives (ms : List String) : String :=
  if ms.isEmpty then ""
  else
    "<h3>Otras películas populares:</h3><ul>"
      ++ String.join (ms.map (fun m => "<li>" ++ m ++ "</li>")) ++ "</ul>"

/-- The HTML written by `displayResults` into the result container. -/
def renderMovie (d : MovieData) : String :=
  "<h2>" ++ d.movieTitle ++ "</h2><p>" ++ d.description ++ "</p>"
    ++ renderAlternatives d.alternativeMovies

/-- Message shown for an empty date value. -/
def msgSelectDate : String := "<p>Por favor, selecciona una fecha.</p>"

/-- Message shown for a date value after today. -/
def msgSelectPast : String := "<p>Por favor, selecciona una fecha en el pasado.</p>"

/-- Fixed failure message of the catch branch. -/
def msgFailure : String :=
  "<p>Lo siento, no pude encontrar una película para esa fecha. Por favor, intenta con otra.</p>"

/-- The DOM state the handler manipulates: the loader's `hidden` class, the
result container's `display` style and its inner HTML. -/
structure Dom where
  loaderHidden : Bool
  resultShown : Bool
  resultHtml : String
deriving Repr, DecidableEq

/-- Mutable state visible to one run: the DOM and the local key-value store. -/
structure AppState where
  dom : Dom
  cache : List (String × String)
deriving Repr, DecidableEq

/-- Per-run environment: today's date string (set at startup), the JSON parser
(`none` = `JSON.parse` threw), the serializer used by `setItem`, and the
awaited AI call (`Except.error` = the call threw or rejected, `Except.ok` =
the `response.text` payload). -/
structure Env where
  today : String
  parseJson : String → Option MovieData
  stringifyMovie : MovieData → String
  aiResponse : Except String String

/-- Observable outcome of one run of the submit handler. `showCount` counts
the assignments `resultContainer.style.display = "block"` executed during the
run; `completed` is false when the run ended in an uncaught exception. -/
structure RunResult where
  state : AppState
  networkCalls : Nat
  showCount : Nat
  completed : Bool
deriving Repr, DecidableEq

/-- Model of `displayResults`: render the record, hide the loader, show the
result container. -/
def displayResults (data : MovieData) (st : AppState) : AppState :=
  { st with dom := { loaderHidden := true, resultShown := true, resultHtml := renderMovie data } }

/-- The form submit handler of `index.tsx`, one complete run.
Branches, in source order: empty value; future value (string comparison with
today, as in the source); cache hit (with `JSON.parse` of the cached value
outside any try/catch — a parse failure is an uncaught exception that freezes
the state); cache miss (show loader, await the AI call inside try/catch, on
success parse, store and render, on any thrown error render the fixed failure
message, and in `finally` hide the loader and show the result container). -/
def submitHandler (env : Env) (value : String) (st0 : AppState) : RunResult :=
  if value = "" then
    { state := { st0 with dom := { st0.dom with resultShown := true, resultHtml := msgSelectDate } },
      networkCalls := 0, showCount := 1, completed := true }
  else if strLt env.today value then
    { state := { st0 with dom := { st0.dom with resultShown := true, resultHtml := msgSelectPast } },
      networkCalls := 0, showCount := 1, completed := true }
  else
    let key := deriveKey value
    match getItem st0.cache key with
    | some cached =>
      match env.parseJson cached with
      | some data =>
        { state := displayResults data st0, networkCalls := 0, showCount := 1, completed := true }
      | none =>
        { state := st0, networkCalls := 0, showCount := 0, completed := false }
    | none =>
      match env.aiResponse with
      | .error _ =>
        { state := { st0 with dom := { loaderHidden := true, resultShown := true, resultHtml := msgFailure } },
          networkCalls := 1, showCount := 1, completed := true }
      | .ok text =>
        match env.parseJson text with
        | none =>
          { state := { st0 with dom := { loaderHidden := true, resultShown := true, resultHtml := msgFailure } },
            networkCalls := 1, showCount := 1, completed := true }
        | some data =>
          { state := { dom := { loaderHidden := true, resultShown := true, resultHtml := renderMovie data },
                       cache := setItem st0.cache key (env.stringifyMovie data) },
            networkCalls := 1, showCount := 2, completed := true }

/-! ## Helper lemmas -/

/-- No string compares below the empty string. -/
theorem strLt_empty_right (s : String) : strLt s "" = false := by
  cases s with
  | mk l => cases l <;> rfl

/-- Reading back the key just written returns the written value. -/
theorem getItem_setItem_same (c : List (String × String)) (k v : String) :
    getItem (setItem c k v) k = some v := by
  induction c with
  | nil => simp [setItem, getItem]
  | cons hd tl ih =>
    obtain ⟨a, b⟩ := hd
    by_cases h : a = k <;> simp [setItem, getItem, h, ih]

/-- Writing one key leaves every other key's value unchanged. -/
theorem getItem_setItem_other (c : List (String × String)) (k v k' : String)
    (h : k' ≠ k) : getItem (setItem c k v) k' = getItem c k' := by
  induction c with
  | nil => simp [setItem, getItem, Ne.symm h]
  | cons hd tl ih =>
    obtain ⟨a, b⟩ := hd
    by_cases ha : a = k <;> simp [setItem, getItem, ha, Ne.symm h, ih]

/-- Adding one day to a date that is not the last day of its month keeps the
month and the year. -/
theorem addOneDay_not_last (d : CalDate) (h : d.day < daysInMonth d.year d.month) :
    addOneDay d = ⟨d.year, d.month, d.day + 1⟩ := by
  simp [addOneDay, h]

/-! ## Claim theorems -/

/-- Claim C2: for every invocation of the Proxy Handler, if obtaining the
prompt from the request body and the upstream round-trip (fetch plus body
decode) all succeed, the handler returns status 200 with the upstream JSON,
serialized, as the body; and when any of the three steps throws — body parse
failure, network failure of the fetch, or decode failure of the upstream
body — it returns status 500 with body `\x7b"error": <stringified error>\x7d`. -/
theorem proxyHandler_envelope
    (r : Except String JsonValue)
    (up : Option JsonValue → Except String (Except String JsonValue)) :
    (∀ p data, reqPrompt r = .ok p → up p = .ok (.ok data) →
      proxyHandler r up = ⟨200, stringify data⟩) ∧
    (∀ e, reqPrompt r = .error e → proxyHandler r up = ⟨500, errorEnvelope e⟩) ∧
    (∀ p e, reqPrompt r = .ok p → up p = .error e →
      proxyHandler r up = ⟨500, errorEnvelope e⟩) ∧
    (∀ p e, reqPrompt r = .ok p → up p = .ok (.error e) →
      proxyHandler r up = ⟨500, errorEnvelope e⟩) := by
  refine ⟨?_, ?_, ?_, ?_⟩
  · intro p data h1 h2; simp [proxyHandler, h1, h2]
  · intro e h1; simp [proxyHandler, h1]
  · intro p e h1 h2; simp [proxyHandler, h1, h2]
  · intro p e h1 h2; simp [proxyHandler, h1, h2]

/-- Witness for C2: a concrete successful round-trip yields 200 with the
upstream document, and a concrete body-parse failure yields the 500 envelope. -/
theorem proxyHandler_envelope_witness :
    proxyHandler (.ok (.obj [("prompt", .str "x")]))
      (fun _ => .ok (.ok (.str "hello"))) = ⟨200, stringify (.str "hello")⟩ ∧
    proxyHandler (.error "SyntaxError: Unexpected end of JSON input")
      (fun _ => .ok (.ok .null)) =
      ⟨500, errorEnvelope "SyntaxError: Unexpected end of JSON input"⟩ :=
  ⟨(proxyHandler_envelope _ _).1 (some (.str "x")) (.str "hello") rfl rfl,
   (proxyHandler_envelope _ _).2.1 "SyntaxError: Unexpected end of JSON input" rfl⟩

/-- Counterexample to C10 as stated: the body `null` is valid JSON without a
`prompt` field, yet even with a successful upstream the handler returns 500,
because destructuring `null` throws before the fetch. -/
theorem proxyHandler_nullBody_cex :
    getField .null "prompt" = none ∧
    (proxyHandler (.ok .null) (fun _ => .ok (.ok (.str "d")))).status = 500 :=
  ⟨rfl, rfl⟩

/-- Claim C10 (amended): for every request whose body is valid JSON other than
`null` and lacks a `prompt` field, the handler does not reject it: the prompt
is forwarded as `undefined`, and if the upstream round-trip succeeds the
handler returns 200 with the upstream body. -/
theorem proxyHandler_missing_prompt
    (j : JsonValue) (up : Option JsonValue → Except String (Except String JsonValue))
    (d : JsonValue) (hnull : j ≠ .null) (hp : getField j "prompt" = none)
    (hup : up none = .ok (.ok d)) :
    proxyHandler (.ok j) up = ⟨200, stringify d⟩ := by
  have hr : reqPrompt (.ok j) = .ok none := by
    cases j with
    | null => exact absurd rfl hnull
    | bool b => simpa [reqPrompt] using hp
    | num n => simpa [reqPrompt] using hp
    | str s => simpa [reqPrompt] using hp
    | arr es => simpa [reqPrompt] using hp
    | obj fs => simpa [reqPrompt] using hp
  simp [proxyHandler, hr, hup]

/-- Witness for C10 (amended): the empty object body is accepted and the
upstream answer is passed through with status 200. -/
theorem proxyHandler_missing_prompt_witness :
    proxyHandler (.ok (.obj [])) (fun _ => .ok (.ok (.num 7))) = ⟨200, stringify (.num 7)⟩ :=
  proxyHandler_missing_prompt (.obj []) _ (.num 7)
    (fun h => JsonValue.noConfusion h) rfl rfl

/-- Counterexample to C1 as stated: `2024-01-15` and `2024-01-31` are valid
past dates in the same calendar month and year (both precede today,
2026-10-12), yet the one-day shift rolls the 31st over into February, so the
two submissions derive different Query Keys. -/
theorem deriveKey_same_month_cex :
    parseDate "2024-01-15" = some ⟨2024, 1, 15⟩ ∧
    parseDate "2024-01-31" = some ⟨2024, 1, 31⟩ ∧
    strLt "2024-01-15" "2026-10-12" = true ∧
    strLt "2024-01-31" "2026-10-12" = true ∧
    deriveKey "2024-01-15" = "movie-enero-2024" ∧
    deriveKey "2024-01-31" = "movie-febrero-2024" := by
  refine ⟨by decide, by decide, by decide, by decide, by decide, by decide⟩

/-- Claim C1 (amended): the derived Query Key is determined by the calendar
month and year of the shifted date; in particular, any two parseable date
values lying in the same calendar month and year, neither of which falls on
the last day of its month, yield the same key. -/
theorem deriveKey_same_month_same_key
    (s1 s2 : String) (d1 d2 : CalDate)
    (h1 : parseDate s1 = some d1) (h2 : parseDate s2 = some d2)
    (hm : d1.month = d2.month) (hy : d1.year = d2.year)
    (hl1 : d1.day < daysInMonth d1.year d1.month)
    (hl2 : d2.day < daysInMonth d2.year d2.month) :
    deriveKey s1 = deriveKey s2 := by
  simp [deriveKey, h1, h2, cacheKeyOfDate,
    addOneDay_not_last d1 hl1, addOneDay_not_last d2 hl2, hm, hy]

/-- Witness for C1 (amended): the 5th and the 20th of March 2024 derive the
same key. -/
theorem deriveKey_same_month_same_key_witness :
    parseDate "2024-03-05" = some ⟨2024, 3, 5⟩ ∧
    deriveKey "2024-03-05" = deriveKey "2024-03-20" :=
  ⟨by decide,
   deriveKey_same_month_same_key "2024-03-05" "2024-03-20" ⟨2024, 3, 5⟩ ⟨2024, 3, 20⟩
     (by decide) (by decide) rfl rfl (by decide) (by decide)⟩

/-- Claim C8: the input date 2024-01-15 is shifted to 2024-01-16, the
localized month is `enero` and the year 2024, and the derived Query Key is
`movie-enero-2024`. -/
theorem deriveKey_example_2024_01_15 :
    parseDate "2024-01-15" = some ⟨2024, 1, 15⟩ ∧
    addOneDay ⟨2024, 1, 15⟩ = ⟨2024, 1, 16⟩ ∧
    monthNameEs 1 = "enero" ∧
    deriveKey "2024-01-15" = "movie-enero-2024" := by
  refine ⟨by decide, by decide, by decide, by decide⟩

/-- Claim C6: an empty date value renders the localized "select a date"
message and stops, and a future date value renders the localized "select a
past date" message and stops; in both cases no network call is issued and the
cache is untouched. -/
theorem submitHandler_invalid_input (env : Env) (value : String) (st0 : AppState) :
    (value = "" →
      submitHandler env value st0 =
        { state := { st0 with dom := { st0.dom with resultShown := true, resultHtml := msgSelectDate } },
          networkCalls := 0, showCount := 1, completed := true }) ∧
    (strLt env.today value = true →
      submitHandler env value st0 =
        { state := { st0 with dom := { st0.dom with resultShown := true, resultHtml := msgSelectPast } },
          networkCalls := 0, showCount := 1, completed := true }) := by
  constructor
  · intro h
    simp [submitHandler, h]
  · intro h
    have hne : value ≠ "" := by
      intro hv
      rw [hv, strLt_empty_right] at h
      exact Bool.false_ne_true h
    simp [submitHandler, hne, h]

/-- Witness for C6: concrete empty and future submissions from a fresh state. -/
theorem submitHandler_invalid_input_witness :
    (submitHandler ⟨"2026-10-12", fun _ => none, fun _ => "", .error "net"⟩ ""
        ⟨⟨true, false, ""⟩, []⟩).state.dom.resultHtml = msgSelectDate ∧
    (submitHandler ⟨"2026-10-12", fun _ => none, fun _ => "", .error "net"⟩ "2030-01-01"
        ⟨⟨true, false, ""⟩, []⟩).state.dom.resultHtml = msgSelectPast := by
  constructor
  · rw [(submitHandler_invalid_input ⟨"2026-10-12", fun _ => none, fun _ => "", .error "net"⟩
      "" ⟨⟨true, false, ""⟩, []⟩).1 rfl]
  · rw [(submitHandler_invalid_input ⟨"2026-10-12", fun _ => none, fun _ => "", .error "net"⟩
      "2030-01-01" ⟨⟨true, false, ""⟩, []⟩).2 (by decide)]

/-- Claim C4: a submission whose derived Query Key is in the cache, with a
parseable stored value, issues no network call, leaves the cache unchanged,
and renders exactly the parsed stored record. -/
theorem submitHandler_cache_hit (env : Env) (value : String) (st0 : AppState)
    (c : String) (data : MovieData)
    (hne : value ≠ "") (hpast : strLt env.today value = false)
    (hhit : getItem st0.cache (deriveKey value) = some c)
    (hparse : env.parseJson c = some data) :
    (submitHandler env value st0).networkCalls = 0 ∧
    (submitHandler env value st0).state.cache = st0.cache ∧
    (submitHandler env value st0).state.dom.resultHtml = renderMovie data ∧
    (submitHandler env value st0).completed = true := by
  simp [submitHandler, hne, hpast, hhit, hparse, displayResults]

/-- Witness for C4: a concrete hit on `movie-enero-2024` renders the cached
record without touching the network. -/
theorem submitHandler_cache_hit_witness :
    (submitHandler
        ⟨"2026-10-12", fun s => if s = "stored" then some ⟨"T", "D", []⟩ else none,
          fun _ => "", .error "net"⟩
        "2024-01-15" ⟨⟨true, false, ""⟩, [("movie-enero-2024", "stored")]⟩).networkCalls = 0 ∧
    (submitHandler
        ⟨"2026-10-12", fun s => if s = "stored" then some ⟨"T", "D", []⟩ else none,
          fun _ => "", .error "net"⟩
        "2024-01-15" ⟨⟨true, false, ""⟩, [("movie-enero-2024", "stored")]⟩).state.dom.resultHtml
      = renderMovie ⟨"T", "D", []⟩ := by
  have h := submitHandler_cache_hit
    ⟨"2026-10-12", fun s => if s = "stored" then some ⟨"T", "D", []⟩ else none,
      fun _ => "", .error "net"⟩
    "2024-01-15" ⟨⟨true, false, ""⟩, [("movie-enero-2024", "stored")]⟩
    "stored" ⟨"T", "D", []⟩ (by decide) (by decide) (by decide) (by decide)
  exact ⟨h.1, h.2.2.1⟩

/-- Claim C3: a cache miss whose AI call throws, or whose response text fails
to parse, writes nothing to the cache — the store is unchanged — renders the
fixed localized failure message, and completes. -/
theorem submitHandler_miss_failure (env : Env) (value : String) (st0 : AppState)
    (hne : value ≠ "") (hpast : strLt env.today value = false)
    (hmiss : getItem st0.cache (deriveKey value) = none)
    (hfail : (∃ e, env.aiResponse = .error e) ∨
      (∃ t, env.aiResponse = .ok t ∧ env.parseJson t = none)) :
    (submitHandler env value st0).state.cache = st0.cache ∧
    (submitHandler env value st0).state.dom.resultHtml = msgFailure ∧
    (submitHandler env value st0).networkCalls = 1 ∧
    (submitHandler env value st0).completed = true := by
  rcases hfail with ⟨e, he⟩ | ⟨t, ht, hp⟩
  · simp [submitHandler, hne, hpast, hmiss, he]
  · simp [submitHandler, hne, hpast, hmiss, ht, hp]

/-- Witness for C3: a concrete miss with a throwing AI call leaves the store
empty and renders the failure message. -/
theorem submitHandler_miss_failure_witness :
    (submitHandler ⟨"2026-10-12", fun _ => none, fun _ => "", .error "TypeError: Failed to fetch"⟩
        "2024-01-15" ⟨⟨true, false, ""⟩, []⟩).state.cache = [] ∧
    (submitHandler ⟨"2026-10-12", fun _ => none, fun _ => "", .error "TypeError: Failed to fetch"⟩
        "2024-01-15" ⟨⟨true, false, ""⟩, []⟩).state.dom.resultHtml = msgFailure := by
  have h := submitHandler_miss_failure
    ⟨"2026-10-12", fun _ => none, fun _ => "", .error "TypeError: Failed to fetch"⟩
    "2024-01-15" ⟨⟨true, false, ""⟩, []⟩ (by decide) (by decide) (by decide)
    (.inl ⟨"TypeError: Failed to fetch", rfl⟩)
  exact ⟨h.1, h.2.1⟩

/-- Claim C5: a cache miss whose AI call succeeds with parseable JSON writes
exactly one entry — the serialized parsed response under the derived key —
leaves every other key unchanged, and renders the parsed record. -/
theorem submitHandler_miss_success (env : Env) (value : String) (st0 : AppState)
    (t : String) (data : MovieData)
    (hne : value ≠ "") (hpast : strLt env.today value = false)
    (hmiss : getItem st0.cache (deriveKey value) = none)
    (ht : env.aiResponse = .ok t) (hp : env.parseJson t = some data) :
    (submitHandler env value st0).state.cache
      = setItem st0.cache (deriveKey value) (env.stringifyMovie data) ∧
    getItem (submitHandler env value st0).state.cache (deriveKey value)
      = some (env.stringifyMovie data) ∧
    (∀ k, k ≠ deriveKey value →
      getItem (submitHandler env value st0).state.cache k = getItem st0.cache k) ∧
    (submitHandler env value st0).state.dom.resultHtml = renderMovie data ∧
    (submitHandler env value st0).networkCalls = 1 := by
  have hrun : (submitHandler env value st0).state.cache
      = setItem st0.cache (deriveKey value) (env.stringifyMovie data) := by
    simp [submitHandler, hne, hpast, hmiss, ht, hp]
  refine ⟨hrun, ?_, ?_, ?_, ?_⟩
  · rw [hrun]; exact getItem_setItem_same _ _ _
  · intro k hk; rw [hrun]; exact getItem_setItem_other _ _ _ _ hk
  · simp [submitHandler, hne, hpast, hmiss, ht, hp]
  · simp [submitHandler, hne, hpast, hmiss, ht, hp]

/-- Witness for C5: a concrete miss followed by a successful parse stores the
serialized record under `movie-enero-2024` and renders it. -/
theorem submitHandler_miss_success_witness :
    getItem (submitHandler
        ⟨"2026-10-12", fun _ => some ⟨"T", "D", ["A"]⟩, fun _ => "ser", .ok "payload"⟩
        "2024-01-15" ⟨⟨true, false, ""⟩, []⟩).state.cache "movie-enero-2024" = some "ser" ∧
    (submitHandler
        ⟨"2026-10-12", fun _ => some ⟨"T", "D", ["A"]⟩, fun _ => "ser", .ok "payload"⟩
        "2024-01-15" ⟨⟨true, false, ""⟩, []⟩).state.dom.resultHtml
      = renderMovie ⟨"T", "D", ["A"]⟩ := by
  have h := submitHandler_miss_success
    ⟨"2026-10-12", fun _ => some ⟨"T", "D", ["A"]⟩, fun _ => "ser", .ok "payload"⟩
    "2024-01-15" ⟨⟨true, false, ""⟩, []⟩ "payload" ⟨"T", "D", ["A"]⟩
    (by decide) (by decide) (by decide) rfl rfl
  refine ⟨?_, h.2.2.2.1⟩
  have hk : deriveKey "2024-01-15" = "movie-enero-2024" := by decide
  have := h.2.1
  rw [hk] at this
  exact this

/-- Counterexample to C7 as stated: in a complete cache-miss run with a
successful response, the result area's display is set to visible twice — once
by the render step and once more by the cleanup step — not exactly once. -/
theorem submitHandler_shown_twice_cex :
    (submitHandler ⟨"2026-10-12", fun _ => some ⟨"T", "D", []⟩, fun _ => "ser", .ok "p"⟩
        "2024-01-15" ⟨⟨true, false, ""⟩, []⟩).completed = true ∧
    (submitHandler ⟨"2026-10-12", fun _ => some ⟨"T", "D", []⟩, fun _ => "ser", .ok "p"⟩
        "2024-01-15" ⟨⟨true, false, ""⟩, []⟩).showCount = 2 := by
  refine ⟨by decide, by decide⟩

/-- Claim C7 (amended): after every complete run started with the loading
indicator hidden, the loading indicator is hidden and the result area is
shown; the result area's display is set to visible once or twice per run
(twice exactly on the cache-miss success path). -/
theorem submitHandler_postcondition (env : Env) (value : String) (st0 : AppState)
    (hloader : st0.dom.loaderHidden = true)
    (hdone : (submitHandler env value st0).completed = true) :
    (submitHandler env value st0).state.dom.loaderHidden = true ∧
    (submitHandler env value st0).state.dom.resultShown = true ∧
    ((submitHandler env value st0).showCount = 1 ∨
      (submitHandler env value st0).showCount = 2) := by
  by_cases h1 : value = ""
  · simp [submitHandler, h1, hloader]
  · by_cases h2 : strLt env.today value = true
    · simp [submitHandler, h1, h2, hloader]
    · have h2' : strLt env.today value = false := by
        cases hb : strLt env.today value
        · rfl
        · exact absurd hb h2
      cases hcache : getItem st0.cache (deriveKey value) with
      | some c =>
        cases hp : env.parseJson c with
        | some data => simp [submitHandler, h1, h2', hcache, hp, displayResults]
        | none => simp [submitHandler, h1, h2', hcache, hp] at hdone
      | none =>
        cases hai : env.aiResponse with
        | error e => simp [submitHandler, h1, h2', hcache, hai]
        | ok t =>
          cases hp : env.parseJson t with
          | none => simp [submitHandler, h1, h2', hcache, hai, hp]
          | some data => simp [submitHandler, h1, h2', hcache, hai, hp]

/-- Witness for C7 (amended): a concrete complete validation-failure run ends
with the loader hidden and the result area shown. -/
theorem submitHandler_postcondition_witness :
    (submitHandler ⟨"2026-10-12", fun _ => none, fun _ => "", .error "net"⟩ ""
        ⟨⟨true, false, ""⟩, []⟩).state.dom.loaderHidden = true ∧
    (submitHandler ⟨"2026-10-12", fun _ => none, fun _ => "", .error "net"⟩ ""
        ⟨⟨true, false, ""⟩, []⟩).state.dom.resultShown = true ∧
    ((submitHandler ⟨"2026-10-12", fun _ => none, fun _ => "", .error "net"⟩ ""
        ⟨⟨true, false, ""⟩, []⟩).showCount = 1 ∨
      (submitHandler ⟨"2026-10-12", fun _ => none, fun _ => "", .error "net"⟩ ""
        ⟨⟨true, false, ""⟩, []⟩).showCount = 2) :=
  submitHandler_postcondition ⟨"2026-10-12", fun _ => none, fun _ => "", .error "net"⟩ ""
    ⟨⟨true, false, ""⟩, []⟩ rfl (by decide)

/-- Claim C9: with a cached value under the derived key that is non-empty but
not valid JSON, the cache-hit path throws an uncaught exception: the run does
not complete, no message is rendered, the state is left untouched and no
network call is made. -/
theorem submitHandler_corrupt_cache_throws :
    getItem [("movie-enero-2024", "not json")] (deriveKey "2024-01-15") = some "not json" ∧
    "not json" ≠ "" ∧
    (submitHandler ⟨"2026-10-12", fun _ => none, fun _ => "", .ok ""⟩ "2024-01-15"
        ⟨⟨true, true, "previous"⟩, [("movie-enero-2024", "not json")]⟩).completed = false ∧
    (submitHandler ⟨"2026-10-12", fun _ => none, fun _ => "", .ok ""⟩ "2024-01-15"
        ⟨⟨true, true, "previous"⟩, [("movie-enero-2024", "not json")]⟩).state
      = ⟨⟨true, true, "previous"⟩, [("movie-enero-2024", "not json")]⟩ ∧
    (submitHandler ⟨"2026-10-12", fun _ => none, fun _ => "", .ok ""⟩ "2024-01-15"
        ⟨⟨true, true, "previous"⟩, [("movie-enero-2024", "not json")]⟩).networkCalls = 0 := by
  refine ⟨by decide, by decide, by decide, by decide, by decide⟩
